import Mathlib

/-!
Verification development for the fiscal-document (NFe) ingestion backend.

The definitions below are a shallow embedding of `src/routes/notas.js` and the
`Nota` mongoose model.  The parsed XML tree produced by `xml2js`
(`explicitArray: false`) is modelled as nested structures whose optional
members are `Option`-valued: a JavaScript property access that may yield
`undefined` becomes an `Option` projection, and a property access *on*
`undefined` (a thrown `TypeError`) is modelled by the surrounding function
returning the dedicated failure value that the route's `catch` block turns
into an HTTP 500.  Machine floats are modelled as `ℚ` (the totals handled by
the system are plain decimal literals, which `parseFloat` represents exactly
for the magnitudes involved).  The MongoDB collection and the GridFS bucket
are modelled as explicit lists inside a `Store` state threaded through each
handler.
-/

namespace NfeBackend

/-! ### Parsed XML tree (output of xml2js with explicitArray: false) -/

/-- The `$` attribute map of the `infNFe` element; only its `Id` attribute is
read by the code. -/
structure DollarAttr where
  Id : Option String
deriving DecidableEq, Repr

/-- The `ide` node: issue metadata (`nNF` document number, `dhEmi` date). -/
structure IdeNode where
  nNF : Option String
  dhEmi : Option String
deriving DecidableEq, Repr

/-- An address node (`enderEmit` / `enderDest`). -/
structure EnderNode where
  xLgr : Option String
  nro : Option String
  xBairro : Option String
  xMun : Option String
  UF : Option String
  CEP : Option String
deriving DecidableEq, Repr

/-- The `emit` (sender) node. -/
structure EmitNode where
  xNome : Option String
  CNPJ : Option String
  enderEmit : Option EnderNode
deriving DecidableEq, Repr

/-- The `dest` (recipient) node. -/
structure DestNode where
  xNome : Option String
  CNPJ : Option String
  CPF : Option String
  enderDest : Option EnderNode
deriving DecidableEq, Repr

/-- An opaque product sub-object (`prod` inside a `det` entry); the route
passes it through without inspecting it. -/
structure Produto where
  dados : List (String × String)
deriving DecidableEq, Repr

/-- One `det` entry.  Its `prod` member may be missing, in which case the
JavaScript access `d.prod` yields `undefined` (no throw). -/
structure DetEntry where
  prod : Option Produto
deriving DecidableEq, Repr

/-- The `det` node as produced by xml2js: a repeated element parses to an
array, a unique one parses to a single object.  This list-vs-scalar
ambiguity is exactly what `Array.isArray(infNFe.det)` dispatches on. -/
inductive DetNode where
  | seq (entries : List DetEntry)
  | single (entry : DetEntry)
deriving DecidableEq, Repr

/-- The `total.ICMSTot` node carrying the grand total `vNF`. -/
structure ICMSTotNode where
  vNF : Option String
deriving DecidableEq, Repr

/-- The `total` node. -/
structure TotalNode where
  ICMSTot : Option ICMSTotNode
deriving DecidableEq, Repr

/-- The opaque `transp` (carrier) node, passed through unchanged. -/
structure TranspNode where
  dados : List (String × String)
deriving DecidableEq, Repr

/-- The `infNFe` document node.  `attr` models the xml2js attribute map
`infNFe.$`; `idField` models a direct `infNFe.id` property. -/
structure InfNFe where
  attr : Option DollarAttr
  idField : Option String
  ide : Option IdeNode
  emit : Option EmitNode
  dest : Option DestNode
  transp : Option TranspNode
  det : Option DetNode
  total : Option TotalNode
deriving DecidableEq, Repr

/-- The `NFe` envelope node. -/
structure NFeNode where
  infNFe : Option InfNFe
deriving DecidableEq, Repr

/-- The `nfeProc` root node. -/
structure NfeProcNode where
  NFe : Option NFeNode
deriving DecidableEq, Repr

/-- A fully parsed XML document. -/
structure ParsedXml where
  nfeProc : Option NfeProcNode
deriving DecidableEq, Repr

/-- An uploaded XML file: the raw text plus the parser's output
(`none` models `parseStringPromise` throwing on non-XML input). -/
structure XmlFile where
  raw : String
  parsed : Option ParsedXml
deriving DecidableEq, Repr

/-! ### Key extractor (`extrairChaveNFe`) -/

/-- JavaScript truthiness of an optional string: `undefined` and the empty
string are falsy. -/
def optTruthy : Option String → Bool
  | none => false
  | some s => s != ""

/-- The conditional `infNFe.$ ? infNFe.$.Id : infNFe.id`: when the attribute
map is present (an object is always truthy) its `Id` entry is used, with no
fallback to the direct field. -/
def resolveId (i : InfNFe) : Option String :=
  match i.attr with
  | some a => a.Id
  | none => i.idField

/-- The stripping step of the key extractor: remove the leading literal
`NFe` when present, otherwise return the value unchanged. -/
def stripChave (s : String) : String :=
  if s.startsWith "NFe" then s.drop 3 else s

/-- Embedding of `extrairChaveNFe`: resolve the identifier
(attribute map first, else direct field), then strip the `NFe` prefix when
the value is truthy and carries it (`id && id.startsWith('NFe')`). -/
def extrairChaveNFe (i : InfNFe) : Option String :=
  match resolveId i with
  | none => none
  | some s => if (s != "") && s.startsWith "NFe" then some (s.drop 3) else some s

/-! ### parseFloat model -/

/-- Whitespace skipped by `parseFloat`. -/
def isJsSpace (c : Char) : Bool :=
  c == ' ' || c == '\t' || c == '\n' || c == '\r'

/-- Numeric value of a digit list, most significant first. -/
def digitsToNat (ds : List Char) : Nat :=
  ds.foldl (fun acc c => acc * 10 + (c.toNat - 48)) 0

/-- Model of JavaScript `parseFloat` on the decimal literals the system
handles: skip leading whitespace, read an optional sign, then the longest
prefix of the form `digits [. digits]`; `none` models `NaN` (no leading
digits at all).  Exponents and `Infinity`, which never occur in the `vNF`
totals field, are not modelled. -/
def jsParseFloat (s : String) : Option ℚ :=
  let cs := s.toList.dropWhile isJsSpace
  let signed : Bool × List Char :=
    match cs with
    | '-' :: rest => (true, rest)
    | '+' :: rest => (false, rest)
    | _ => (false, cs)
  let intPart := signed.2.takeWhile Char.isDigit
  let afterInt := signed.2.dropWhile Char.isDigit
  let fracPart :=
    match afterInt with
    | '.' :: rest => rest.takeWhile Char.isDigit
    | _ => []
  if intPart.isEmpty && fracPart.isEmpty then none
  else
    let mag : ℚ :=
      (digitsToNat intPart : ℚ) + (digitsToNat fracPart : ℚ) / ((10 : ℚ) ^ fracPart.length)
    some (if signed.1 then -mag else mag)

/-! ### The persisted Record (mongoose `Nota` model) and the store state -/

/-- A normalized address sub-object of a Record.  Absent source fields stay
absent (optional-chaining semantics, no defaulting). -/
structure Endereco where
  logradouro : Option String
  numero : Option String
  bairro : Option String
  municipio : Option String
  uf : Option String
  cep : Option String
deriving DecidableEq, Repr

/-- The Record's sender sub-object. -/
structure Remetente where
  nome : Option String
  cnpj : Option String
  endereco : Endereco
deriving DecidableEq, Repr

/-- The Record's recipient sub-object. -/
structure Destinatario where
  nome : Option String
  cnpj : Option String
  cpf : Option String
  endereco : Endereco
deriving DecidableEq, Repr

/-- A persisted `Nota` document.  `id` models the MongoDB `_id` (unique in
the collection), `pdfFileId` the GridFS reference, `criadoEm` the creation
timestamp.  `valorTotal` is total because the store's schema cast rejects a
`NaN` value before any insert happens (see `ingest`). -/
structure Nota where
  id : Nat
  numero : String
  chaveNFe : String
  dataEmissao : Option String
  remetente : Remetente
  destinatario : Destinatario
  transportadora : Option TranspNode
  produtos : List (Option Produto)
  valorTotal : ℚ
  xmlTexto : String
  pdfFileId : Option Nat
  criadoEm : Nat
deriving DecidableEq, Repr

/-- A GridFS blob in the `pdfs` bucket. -/
structure Blob where
  id : Nat
  nome : String
deriving DecidableEq, Repr

/-- The persistent state: the `Nota` collection, the `pdfs` GridFS bucket,
the ids the store will assign next, and the current clock used for
`criadoEm`. -/
structure Store where
  notas : List Nota
  blobs : List Blob
  nextNotaId : Nat
  nextBlobId : Nat
  agora : Nat
deriving DecidableEq, Repr

/-! ### Record normalizer (`notaData` construction) -/

/-- The pre-persistence record value built by the route
(the `notaData` object literal): no id, no blob reference, no timestamp.
`valorTotal` is `none` when `parseFloat` produced `NaN`. -/
structure NotaData where
  numero : String
  chaveNFe : String
  dataEmissao : Option String
  remetente : Remetente
  destinatario : Destinatario
  transportadora : Option TranspNode
  produtos : List (Option Produto)
  valorTotal : Option ℚ
  xmlTexto : String
deriving DecidableEq, Repr

/-- Address built through optional chaining (`node?.field`): every field is
read independently and an absent node yields all-absent fields. -/
def enderecoOf (e : Option EnderNode) : Endereco :=
  { logradouro := e.bind EnderNode.xLgr
    numero := e.bind EnderNode.nro
    bairro := e.bind EnderNode.xBairro
    municipio := e.bind EnderNode.xMun
    uf := e.bind EnderNode.UF
    cep := e.bind EnderNode.CEP }

/-- Items normalization, the ternary
`Array.isArray(infNFe.det) ? infNFe.det.map(d => d.prod) : [infNFe.det.prod]`:
a parsed sequence is mapped entrywise to the nested product sub-objects, a
single parsed object is wrapped in a one-element sequence. -/
def produtosOf : DetNode → List (Option Produto)
  | .seq entries => entries.map DetEntry.prod
  | .single d => [d.prod]

/-- Embedding of the `notaData` object literal.  A result of `none` models a
`TypeError` thrown while reading a member of an absent node (`emit`, `det`,
`total` or `total.ICMSTot` missing); the route's `catch` turns that throw
into a 500.  The recipient node and both address nodes are accessed through
optional chaining and therefore never throw. -/
def buildNotaData (raw : String) (i : InfNFe) (ide : IdeNode)
    (numeroS chaveS : String) : Option NotaData :=
  match i.emit, i.det, i.total with
  | some emit, some det, some total =>
    match total.ICMSTot with
    | none => none
    | some icms =>
      some
        { numero := numeroS
          chaveNFe := chaveS
          dataEmissao := ide.dhEmi
          remetente :=
            { nome := emit.xNome
              cnpj := emit.CNPJ
              endereco := enderecoOf emit.enderEmit }
          destinatario :=
            { nome := i.dest.bind DestNode.xNome
              cnpj := i.dest.bind DestNode.CNPJ
              cpf := i.dest.bind DestNode.CPF
              endereco := enderecoOf (i.dest.bind DestNode.enderDest) }
          transportadora := i.transp
          produtos := produtosOf det
          valorTotal := icms.vNF.bind jsParseFloat
          xmlTexto := raw }
  | _, _, _ => none

/-! ### Ingestion handler (`POST /api/notas`) -/

/-- Which duplicate lookup matched, determining the 409 message
(`número` vs `chave`). -/
inductive DupKind where
  | byNumero
  | byChave
deriving DecidableEq, Repr

/-- Outcome of one ingestion request, one constructor per exit path of the
route handler.  The constructors carrying a `Nota` record the document that
was (or stayed) persisted on that path. -/
inductive IngestResult where
  | created (n : Nota)
  | failNoFile
  | failParse
  | failMalformed
  | failMissingIdentity
  | failDuplicate (k : DupKind) (existing : Nota)
  | failExtract
  | failCast
  | failRender (saved : Nota)
  | failBlob (saved : Nota)
deriving DecidableEq, Repr

/-- The row the first `nota.save()` inserts: all normalized fields, no blob
reference yet, store-assigned id and timestamp. -/
def insertedNota (nd : NotaData) (v : ℚ) (st : Store) : Nota :=
  { id := st.nextNotaId
    numero := nd.numero
    chaveNFe := nd.chaveNFe
    dataEmissao := nd.dataEmissao
    remetente := nd.remetente
    destinatario := nd.destinatario
    transportadora := nd.transportadora
    produtos := nd.produtos
    valorTotal := v
    xmlTexto := nd.xmlTexto
    pdfFileId := none
    criadoEm := st.agora }

/-- Persistence, rendering and blob upload: the tail of the route after the
duplicate checks and `notaData` construction succeeded with a numeric total.
`renderFail` models `gerarPDF` throwing, `blobFail` the GridFS upload stream
erroring; both are caught after the first `save` already committed, so the
inserted row is kept. -/
def persistAndRender (nd : NotaData) (v : ℚ) (numeroS : String)
    (renderFail blobFail : Bool) (st : Store) : IngestResult × Store :=
  let nota : Nota := insertedNota nd v st
  let st1 : Store :=
    { st with notas := st.notas ++ [nota], nextNotaId := st.nextNotaId + 1 }
  if renderFail then (.failRender nota, st1)
  else if blobFail then (.failBlob nota, st1)
  else
    let blob : Blob := { id := st1.nextBlobId, nome := "pdf-" ++ numeroS ++ ".pdf" }
    let notaFinal : Nota := { nota with pdfFileId := some blob.id }
    let st2 : Store :=
      { st1 with
        blobs := st1.blobs ++ [blob]
        nextBlobId := st1.nextBlobId + 1
        notas := st1.notas.map (fun m => if m.id == nota.id then notaFinal else m) }
    (.created notaFinal, st2)

/-- The duplicate guard and everything after it: two independent `findOne`
lookups (number first, then key), then normalization, then the schema's
`Number` cast (which rejects a `NaN` total before anything is written), then
persistence and rendering. -/
def ingestWithKeys (raw : String) (i : InfNFe) (ide : IdeNode)
    (numeroS chaveS : String) (renderFail blobFail : Bool) (st : Store) :
    IngestResult × Store :=
  match st.notas.find? (fun n => n.numero == numeroS) with
  | some n => (.failDuplicate .byNumero n, st)
  | none =>
    match st.notas.find? (fun n => n.chaveNFe == chaveS) with
    | some n => (.failDuplicate .byChave n, st)
    | none =>
      match buildNotaData raw i ide numeroS chaveS with
      | none => (.failExtract, st)
      | some nd =>
        match nd.valorTotal with
        | none => (.failCast, st)
        | some v => persistAndRender nd v numeroS renderFail blobFail st

/-- Embedding of the whole `POST /api/notas` handler: missing file check,
parse, structural check on the `nfeProc.NFe.infNFe` nesting, the read
`infNFe.ide.nNF` (which throws when `ide` is absent), key extraction, the
truthiness test `!numero || !chaveNFe`, then `ingestWithKeys`. -/
def ingest (file : Option XmlFile) (renderFail blobFail : Bool) (st : Store) :
    IngestResult × Store :=
  match file with
  | none => (.failNoFile, st)
  | some f =>
    match f.parsed with
    | none => (.failParse, st)
    | some px =>
      match px.nfeProc with
      | none => (.failMalformed, st)
      | some proc =>
        match proc.NFe with
        | none => (.failMalformed, st)
        | some nfe =>
          match nfe.infNFe with
          | none => (.failMalformed, st)
          | some i =>
            match i.ide with
            | none => (.failExtract, st)
            | some ide =>
              if optTruthy ide.nNF && optTruthy (extrairChaveNFe i) then
                ingestWithKeys f.raw i ide (ide.nNF.getD "")
                  ((extrairChaveNFe i).getD "") renderFail blobFail st
              else (.failMissingIdentity, st)

/-- HTTP status produced for each outcome, following the route's explicit
`res.status` calls and its `catch` block (any throw without
`code === 11000` answers 500). -/
def ingestStatus : IngestResult → Nat
  | .created _ => 201
  | .failNoFile => 400
  | .failParse => 500
  | .failMalformed => 400
  | .failMissingIdentity => 400
  | .failDuplicate _ _ => 409
  | .failExtract => 500
  | .failCast => 500
  | .failRender _ => 500
  | .failBlob _ => 500

/-- The `notaExistente` summary the 409 response carries. -/
structure NotaSummary where
  id : Nat
  numero : String
  chaveNFe : String
  criadoEm : Nat
deriving DecidableEq, Repr

/-- Summary of a conflicting record: id, number, document key, creation
timestamp. -/
def notaSummary (n : Nota) : NotaSummary :=
  { id := n.id, numero := n.numero, chaveNFe := n.chaveNFe, criadoEm := n.criadoEm }

/-- The conflict payload of the response, when any: which key collided and
the conflicting record's summary. -/
def conflictBody : IngestResult → Option (DupKind × NotaSummary)
  | .failDuplicate k n => some (k, notaSummary n)
  | _ => none

/-- Outcomes at or after the `Persisted` stage: the row insert has been
committed on these paths (successful creation, render failure, blob-write
failure).  Every other outcome happens before anything was written. -/
def persistedResult : IngestResult → Bool
  | .created _ => true
  | .failRender _ => true
  | .failBlob _ => true
  | _ => false

/-! ### Query service (`GET /api/notas`) -/

/-- The query parameters of the list endpoint.  `busca` and `numero` keep
the raw (possibly empty, hence falsy) strings; `valorMin` / `valorMax` hold
the already-`parseFloat`ed bounds; `page` and `limit` hold the
already-`parseInt`ed values after the destructuring defaults
`page = 1, limit = 10`. -/
structure ListQuery where
  busca : Option String
  numero : Option String
  valorMin : Option ℚ
  valorMax : Option ℚ
  page : Nat
  limit : Nat
deriving DecidableEq, Repr

/-- Case-insensitive substring containment, modelling the
`$regex: busca, $options: "i"` match for the plain (metacharacter-free)
patterns the endpoint receives. -/
def containsCI (hay needle : String) : Bool :=
  decide (needle.toLower.toList <:+: hay.toLower.toList)

/-- The MongoDB filter built by the route: exact `numero` match when a
truthy `numero` parameter was given, an `$or` of three case-insensitive
regex matches when a truthy `busca` was given, and an inclusive
`valorTotal` range.  A record whose optional name field is absent does not
match a regex on it. -/
def matchesFilter (q : ListQuery) (n : Nota) : Bool :=
  (if optTruthy q.numero then n.numero == q.numero.getD "" else true) &&
  (if optTruthy q.busca then
      containsCI (n.remetente.nome.getD "") (q.busca.getD "") ||
      containsCI (n.destinatario.nome.getD "") (q.busca.getD "") ||
      containsCI n.numero (q.busca.getD "")
    else true) &&
  (match q.valorMin with
    | some v => decide (v ≤ n.valorTotal)
    | none => true) &&
  (match q.valorMax with
    | some v => decide (n.valorTotal ≤ v)
    | none => true)

/-- The sort key relation for `.sort({ criadoEm: -1 })`: `a` comes no later
than `b` in the output when `a.criadoEm ≥ b.criadoEm`. -/
def criadoDesc (a b : Nota) : Prop := b.criadoEm ≤ a.criadoEm

instance : DecidableRel criadoDesc := fun a b => Nat.decLe b.criadoEm a.criadoEm

instance : IsTotal Nota criadoDesc :=
  ⟨fun a b => Nat.le_total b.criadoEm a.criadoEm⟩

instance : IsTrans Nota criadoDesc :=
  ⟨fun _ _ _ hab hbc => Nat.le_trans hbc hab⟩

/-- The response of the list endpoint: the page of records plus the
`pagination` object. -/
structure ListResponse where
  notas : List Nota
  currentPage : Nat
  totalPages : Nat
  totalItems : Nat
  itemsPerPage : Nat
deriving DecidableEq, Repr

/-- `Math.ceil(total / limit)` on the nonnegative counts involved, via exact
rational division.  (For `limit = 0` JavaScript would produce `Infinity`;
the endpoints under verification are only stated for `limit ≥ 1`.) -/
def jsCeilPages (total limit : Nat) : Nat :=
  (Int.ceil ((total : ℚ) / (limit : ℚ))).toNat

/-- Embedding of the `GET /api/notas` handler: filter, sort by `criadoEm`
descending, skip `(page - 1) * limit`, take `limit`, and report
`totalItems` and `totalPages = Math.ceil(total / limit)`. -/
def listNotas (q : ListQuery) (st : Store) : ListResponse :=
  let filtered := st.notas.filter (matchesFilter q)
  let sorted := filtered.insertionSort criadoDesc
  let skip := (q.page - 1) * q.limit
  { notas := (sorted.drop skip).take q.limit
    currentPage := q.page
    totalPages := jsCeilPages filtered.length q.limit
    totalItems := filtered.length
    itemsPerPage := q.limit }

/-! ### Deletion service (`DELETE /api/notas/:id`) -/

/-- Outcome of a single-record deletion.  `blobFailSwallowed` records that
`bucket.delete` threw and the error was only logged. -/
inductive DeleteResult where
  | notFound
  | deleted (n : Nota) (blobFailSwallowed : Bool)
deriving DecidableEq, Repr

/-- Embedding of the `DELETE /api/notas/:id` handler.  Ids are modelled as
the store-assigned `Nat` ids, so the `ObjectId.isValid` format check (400)
has no counterpart here.  `findByIdAndDelete` removes the record with the
given id (MongoDB `_id` values are unique, so a filter removes exactly it);
when the record carries `pdfFileId` the GridFS blob is deleted inside a
nested `try` whose failure (`blobDeleteFails`) is logged and swallowed. -/
def deleteNota (id : Nat) (blobDeleteFails : Bool) (st : Store) :
    DeleteResult × Store :=
  match st.notas.find? (fun n => n.id == id) with
  | none => (.notFound, st)
  | some n =>
    let st1 : Store := { st with notas := st.notas.filter (fun m => m.id != id) }
    match n.pdfFileId with
    | none => (.deleted n false, st1)
    | some bid =>
      if blobDeleteFails then (.deleted n true, st1)
      else (.deleted n false,
        { st1 with blobs := st1.blobs.filter (fun b => b.id != bid) })

/-- HTTP status of the deletion outcome: the 404 of a missing record, and
200 for a completed deletion even when the blob deletion was swallowed. -/
def deleteStatus : DeleteResult → Nat
  | .notFound => 404
  | .deleted _ _ => 200

/-! ### Concrete fixtures used by witnesses and counterexamples -/

/-- A well-formed parsed `infNFe` node with number `123`, a prefixed key in
the attribute map, one single (non-array) item, and the given grand total. -/
def mkInf (vnf : String) : InfNFe :=
  { attr := some { Id := some "NFe35200114200166000187550010000000046550010463" }
    idField := none
    ide := some { nNF := some "123", dhEmi := some "2020-01-01" }
    emit := some { xNome := some "ACME", CNPJ := some "1", enderEmit := none }
    dest := none
    transp := none
    det := some (.single { prod := some { dados := [] } })
    total := some { ICMSTot := some { vNF := some vnf } } }

/-- A well-formed uploaded file around `mkInf`. -/
def mkDoc (vnf : String) : XmlFile :=
  { raw := "<xml/>"
    parsed := some { nfeProc := some { NFe := some { infNFe := some (mkInf vnf) } } } }

/-- The empty store. -/
def st0 : Store := { notas := [], blobs := [], nextNotaId := 0, nextBlobId := 0, agora := 1000 }

/-- The stripped document key of `mkInf`. -/
def chave0 : String := "35200114200166000187550010000000046550010463"

/-- A document node whose attribute map is present but lacks `Id`, while a
direct `id` field holds a valid prefixed key. -/
def mkInfNoAttrId : InfNFe :=
  { attr := some { Id := none }
    idField := some ("NFe" ++ chave0)
    ide := some { nNF := some "123", dhEmi := none }
    emit := some { xNome := some "ACME", CNPJ := some "1", enderEmit := none }
    dest := none
    transp := none
    det := some (.single { prod := some { dados := [] } })
    total := some { ICMSTot := some { vNF := some "1" } } }

/-- An uploaded file around `mkInfNoAttrId`. -/
def mkDocNoAttrId : XmlFile :=
  { raw := "<xml/>"
    parsed := some { nfeProc := some { NFe := some { infNFe := some mkInfNoAttrId } } } }

/-- A document node whose attribute map carries the key already stripped of
its prefix. -/
def mkInfBare : InfNFe :=
  { attr := some { Id := some chave0 }
    idField := none
    ide := some { nNF := some "123", dhEmi := none }
    emit := some { xNome := some "ACME", CNPJ := some "1", enderEmit := none }
    dest := none
    transp := none
    det := some (.single { prod := some { dados := [] } })
    total := some { ICMSTot := some { vNF := some "1" } } }

/-- A parsed file lacking the `nfeProc` root: structurally malformed. -/
def mkDocMalformed : XmlFile :=
  { raw := "<oops/>", parsed := some { nfeProc := none } }

/-- A record with number `123` already in the store, for duplicate tests. -/
def nota123 : Nota :=
  { id := 7
    numero := "123"
    chaveNFe := "999"
    dataEmissao := none
    remetente := { nome := some "OLD", cnpj := none, endereco := enderecoOf none }
    destinatario := { nome := none, cnpj := none, cpf := none, endereco := enderecoOf none }
    transportadora := none
    produtos := []
    valorTotal := 1
    xmlTexto := ""
    pdfFileId := none
    criadoEm := 5 }

/-- A store holding `nota123`. -/
def stDup : Store :=
  { notas := [nota123], blobs := [], nextNotaId := 8, nextBlobId := 0, agora := 1000 }

/-- First product fixture. -/
def prodA : Produto := { dados := [("x", "1")] }

/-- Second product fixture. -/
def prodB : Produto := { dados := [("y", "2")] }

/-- A fixed issue-metadata node. -/
def ideFix : IdeNode := { nNF := some "123", dhEmi := none }

/-- A document node whose items node parsed as a two-entry sequence. -/
def mkInfSeq : InfNFe :=
  { attr := some { Id := some ("NFe" ++ chave0) }
    idField := none
    ide := some ideFix
    emit := some { xNome := some "ACME", CNPJ := some "1", enderEmit := none }
    dest := none
    transp := none
    det := some (.seq [{ prod := some prodA }, { prod := some prodB }])
    total := some { ICMSTot := some { vNF := some "10" } } }

/-- The all-absent address sub-object. -/
def enderVazio : Endereco :=
  { logradouro := none, numero := none, bairro := none, municipio := none
    uf := none, cep := none }

/-- Normalizer output on the two-item fixture. -/
def ndSeqExpected : NotaData :=
  { numero := "123"
    chaveNFe := chave0
    dataEmissao := none
    remetente := { nome := some "ACME", cnpj := some "1", endereco := enderVazio }
    destinatario := { nome := none, cnpj := none, cpf := none, endereco := enderVazio }
    transportadora := none
    produtos := [some prodA, some prodB]
    valorTotal := some 10
    xmlTexto := "<xml/>" }

/-- The row inserted when ingesting the `150.50` fixture into the empty
store, as committed before rendering. -/
def notaInserted : Nota :=
  { id := 0
    numero := "123"
    chaveNFe := chave0
    dataEmissao := some "2020-01-01"
    remetente := { nome := some "ACME", cnpj := some "1", endereco := enderVazio }
    destinatario := { nome := none, cnpj := none, cpf := none, endereco := enderVazio }
    transportadora := none
    produtos := [some { dados := [] }]
    valorTotal := 301 / 2
    xmlTexto := "<xml/>"
    pdfFileId := none
    criadoEm := 1000 }

/-- Normalizer output on the single-item fixture. -/
def ndSingleExpected : NotaData :=
  { numero := "123"
    chaveNFe := chave0
    dataEmissao := none
    remetente := { nome := some "ACME", cnpj := some "1", endereco := enderVazio }
    destinatario := { nome := none, cnpj := none, cpf := none, endereco := enderVazio }
    transportadora := none
    produtos := [some { dados := [] }]
    valorTotal := some 1
    xmlTexto := "<xml/>" }

/-- A document node with valid nesting but no `ide` node: reading
`infNFe.ide.nNF` throws. -/
def mkInfNoIde : InfNFe :=
  { attr := some { Id := some ("NFe" ++ chave0) }
    idField := none
    ide := none
    emit := some { xNome := some "ACME", CNPJ := some "1", enderEmit := none }
    dest := none
    transp := none
    det := some (.single { prod := some { dados := [] } })
    total := some { ICMSTot := some { vNF := some "1" } } }

/-- File around `mkInfNoIde`. -/
def mkDocNoIde : XmlFile :=
  { raw := "<xml/>"
    parsed := some { nfeProc := some { NFe := some { infNFe := some mkInfNoIde } } } }

/-- A document node with valid nesting and identity keys but no sender
node: building `notaData` throws at `infNFe.emit.xNome`. -/
def mkInfNoEmit : InfNFe :=
  { attr := some { Id := some ("NFe" ++ chave0) }
    idField := none
    ide := some ideFix
    emit := none
    dest := none
    transp := none
    det := some (.single { prod := some { dados := [] } })
    total := some { ICMSTot := some { vNF := some "1" } } }

/-- File around `mkInfNoEmit`. -/
def mkDocNoEmit : XmlFile :=
  { raw := "<xml/>"
    parsed := some { nfeProc := some { NFe := some { infNFe := some mkInfNoEmit } } } }

/-- A document node with valid nesting, a missing sender node AND a missing
document number: the identity check fires before any extraction throw. -/
def mkInfNoEmitNoNum : InfNFe :=
  { attr := some { Id := some ("NFe" ++ chave0) }
    idField := none
    ide := some { nNF := none, dhEmi := none }
    emit := none
    dest := none
    transp := none
    det := some (.single { prod := some { dados := [] } })
    total := some { ICMSTot := some { vNF := some "1" } } }

/-- File around `mkInfNoEmitNoNum`. -/
def mkDocNoEmitNoNum : XmlFile :=
  { raw := "<xml/>"
    parsed := some { nfeProc := some { NFe := some { infNFe := some mkInfNoEmitNoNum } } } }

/-- The k-th sample record for pagination tests: distinct keys and an
ascending creation time. -/
def mkNota (k : Nat) : Nota :=
  { id := k
    numero := Nat.repr k
    chaveNFe := Nat.repr (1000 + k)
    dataEmissao := none
    remetente := { nome := some "R", cnpj := none, endereco := enderVazio }
    destinatario := { nome := none, cnpj := none, cpf := none, endereco := enderVazio }
    transportadora := none
    produtos := []
    valorTotal := 1
    xmlTexto := ""
    pdfFileId := none
    criadoEm := k }

/-- Fifteen records. -/
def st15 : Store :=
  { notas := (List.range 15).map mkNota
    blobs := []
    nextNotaId := 15
    nextBlobId := 0
    agora := 2000 }

/-- The `page=2, limit=10` query with no filters. -/
def q15 : ListQuery :=
  { busca := none, numero := none, valorMin := none, valorMax := none
    page := 2, limit := 10 }

/-- A record carrying a blob reference. -/
def notaWithBlob : Nota :=
  { id := 1
    numero := "77"
    chaveNFe := "777"
    dataEmissao := none
    remetente := { nome := some "R", cnpj := none, endereco := enderVazio }
    destinatario := { nome := none, cnpj := none, cpf := none, endereco := enderVazio }
    transportadora := none
    produtos := []
    valorTotal := 2
    xmlTexto := ""
    pdfFileId := some 42
    criadoEm := 9 }

/-- The blob referenced by `notaWithBlob`. -/
def blob42 : Blob := { id := 42, nome := "pdf-77.pdf" }

/-- A store for deletion tests: one record without a blob, one with. -/
def stDel : Store :=
  { notas := [nota123, notaWithBlob]
    blobs := [blob42]
    nextNotaId := 10
    nextBlobId := 43
    agora := 3000 }

/-! ### Theorems -/

/-- Reaching the duplicate guard: when the envelope nesting is present, the
`ide` node exists, and both extracted keys are truthy, the handler runs
`ingestWithKeys` on the extracted keys. -/
theorem ingest_reach (f : XmlFile) (px : ParsedXml) (proc : NfeProcNode)
    (nfe : NFeNode) (i : InfNFe) (ide : IdeNode) (numeroS chaveS : String)
    (renderFail blobFail : Bool) (st : Store)
    (hp : f.parsed = some px) (h1 : px.nfeProc = some proc)
    (h2 : proc.NFe = some nfe) (h3 : nfe.infNFe = some i)
    (h4 : i.ide = some ide)
    (hn : ide.nNF = some numeroS) (hnT : numeroS ≠ "")
    (hc : extrairChaveNFe i = some chaveS) (hcT : chaveS ≠ "") :
    ingest (some f) renderFail blobFail st =
      ingestWithKeys f.raw i ide numeroS chaveS renderFail blobFail st := by
  have ht : (optTruthy (some numeroS) && optTruthy (some chaveS)) = true := by
    simp [optTruthy, hnT, hcT]
  simp only [ingest, hp, h1, h2, h3, h4, hn, hc, Option.getD_some, ht, if_true]

/-- C3: for every identifier value the extractor resolves from the document
node (tried in the attribute map first, then as the direct field), the
extractor strips the fixed 3-letter prefix `NFe` exactly when the value
starts with it and returns the value unchanged otherwise; and the stripping
step applied to a key already lacking the prefix returns it unchanged. -/
theorem extrairChaveNFe_strips_prefix (i : InfNFe) (s : String)
    (h : resolveId i = some s) :
    extrairChaveNFe i = some (stripChave s) ∧
    (s.startsWith "NFe" = true → stripChave s = s.drop 3) ∧
    (s.startsWith "NFe" = false → stripChave s = s) := by
  refine ⟨?_, fun hpre => by simp [stripChave, hpre], fun hpre => by simp [stripChave, hpre]⟩
  unfold extrairChaveNFe stripChave
  rw [h]
  by_cases hpre : s.startsWith "NFe"
  · have hne : (s != "") = true := by
      rcases eq_or_ne s "" with he | he
      · subst he
        have hfalse : ("" : String).startsWith "NFe" = false := by with_unfolding_all rfl
        rw [hfalse] at hpre
        exact absurd hpre (by simp)
      · simp [he]
    simp [hpre, hne]
  · simp [hpre]

/-- C3 witness: on the fixture node with a prefixed key the extractor
returns the stripped key, and on the fixture node carrying an already
stripped key the stripping step is the identity. -/
theorem extrairChaveNFe_strips_prefix_witness :
    (resolveId (mkInf "1") = some ("NFe" ++ chave0) ∧
      extrairChaveNFe (mkInf "1") = some (stripChave ("NFe" ++ chave0)) ∧
      stripChave ("NFe" ++ chave0) = chave0) ∧
    (resolveId mkInfBare = some chave0 ∧
      extrairChaveNFe mkInfBare = some (stripChave chave0) ∧
      stripChave chave0 = chave0) := by
  have ha : resolveId (mkInf "1") = some ("NFe" ++ chave0) := by with_unfolding_all rfl
  have m1 := extrairChaveNFe_strips_prefix (mkInf "1") ("NFe" ++ chave0) ha
  have hb : resolveId mkInfBare = some chave0 := by with_unfolding_all rfl
  have m2 := extrairChaveNFe_strips_prefix mkInfBare chave0 hb
  have hpre : ("NFe" ++ chave0).startsWith "NFe" = true := by with_unfolding_all rfl
  have hno : chave0.startsWith "NFe" = false := by with_unfolding_all rfl
  refine ⟨⟨ha, m1.1, ?_⟩, hb, m2.1, m2.2.2 hno⟩
  rw [m1.2.1 hpre]
  with_unfolding_all rfl

/-- C10: the attribute map has strict priority in key extraction.  When the
document node carries an attribute map without an `Id` entry, the direct
`id` field is never consulted (whatever it holds): the extractor yields no
key, and a structurally valid request is rejected with the missing-identity
400, leaving the store untouched. -/
theorem attr_map_strict_priority (f : XmlFile) (px : ParsedXml)
    (proc : NfeProcNode) (nfe : NFeNode) (i : InfNFe) (ide : IdeNode)
    (a : DollarAttr) (renderFail blobFail : Bool) (st : Store)
    (hp : f.parsed = some px) (h1 : px.nfeProc = some proc)
    (h2 : proc.NFe = some nfe) (h3 : nfe.infNFe = some i)
    (h4 : i.ide = some ide) (hattr : i.attr = some a) (hId : a.Id = none) :
    extrairChaveNFe i = none ∧
    ingest (some f) renderFail blobFail st = (.failMissingIdentity, st) ∧
    ingestStatus .failMissingIdentity = 400 := by
  have hres : resolveId i = none := by
    simp only [resolveId, hattr]
    exact hId
  have hch : extrairChaveNFe i = none := by
    simp only [extrairChaveNFe, hres]
  refine ⟨hch, ?_, rfl⟩
  simp only [ingest, hp, h1, h2, h3, h4, hch, optTruthy, Bool.and_false, Bool.false_eq_true,
    if_false]

/-- Helper: a successful normalization pins the items field to the
normalization of the document's `det` node. -/
theorem buildNotaData_produtos (raw : String) (i : InfNFe) (ide : IdeNode)
    (numeroS chaveS : String) (nd : NotaData)
    (h : buildNotaData raw i ide numeroS chaveS = some nd) :
    ∃ det, i.det = some det ∧ nd.produtos = produtosOf det := by
  cases he : i.emit <;> cases hd : i.det <;> cases ht : i.total <;>
      simp only [buildNotaData, he, hd, ht] at h <;>
    try exact absurd h (by simp)
  case some.some.some e dn t =>
    cases hicms : t.ICMSTot with
    | none => simp [hicms] at h
    | some icms =>
      simp only [hicms, Option.some.injEq] at h
      exact ⟨dn, rfl, by rw [← h]⟩

/-- C4: when the parser yielded the items node as a sequence of N entries,
the normalized record's items field is the N-element sequence of the
entries' nested product sub-objects in the same order; when it yielded a
single object, the items field is the one-element sequence holding that
object's product sub-object.  (By type, the items field is always a
sequence.) -/
theorem items_normalization (raw : String) (i : InfNFe) (ide : IdeNode)
    (numeroS chaveS : String) (nd : NotaData)
    (h : buildNotaData raw i ide numeroS chaveS = some nd) :
    (∀ entries, i.det = some (.seq entries) →
      nd.produtos = entries.map DetEntry.prod) ∧
    (∀ d, i.det = some (.single d) → nd.produtos = [d.prod]) := by
  obtain ⟨det, hdet, hprod⟩ := buildNotaData_produtos raw i ide numeroS chaveS nd h
  constructor
  · intro entries hseq
    have hde : det = DetNode.seq entries := Option.some.inj (hdet.symm.trans hseq)
    subst hde
    simpa [produtosOf] using hprod
  · intro d hsingle
    have hde : det = DetNode.single d := Option.some.inj (hdet.symm.trans hsingle)
    subst hde
    simpa [produtosOf] using hprod

/-- C4 witness: the two-item fixture normalizes to the two product
sub-objects in order, the single-item fixture to a one-element sequence. -/
theorem items_normalization_witness :
    (buildNotaData "<xml/>" mkInfSeq ideFix "123" chave0 = some ndSeqExpected ∧
      ndSeqExpected.produtos = [some prodA, some prodB]) ∧
    (buildNotaData "<xml/>" (mkInf "1") ideFix "123" chave0 = some ndSingleExpected ∧
      ndSingleExpected.produtos = [some { dados := [] }]) := by
  have hb1 : buildNotaData "<xml/>" mkInfSeq ideFix "123" chave0 = some ndSeqExpected := by
    with_unfolding_all rfl
  have hb2 : buildNotaData "<xml/>" (mkInf "1") ideFix "123" chave0 =
      some ndSingleExpected := by
    with_unfolding_all rfl
  have m1 := items_normalization "<xml/>" mkInfSeq ideFix "123" chave0 ndSeqExpected hb1
  have m2 := items_normalization "<xml/>" (mkInf "1") ideFix "123" chave0
    ndSingleExpected hb2
  exact ⟨⟨hb1, m1.1 [{ prod := some prodA }, { prod := some prodB }] rfl⟩,
    hb2, m2.2 { prod := some { dados := [] } } rfl⟩

/-- Helper: explicit value of the normalizer when all throwing accesses
succeed. -/
theorem buildNotaData_eq (raw : String) (i : InfNFe) (ide : IdeNode)
    (numeroS chaveS : String) (e : EmitNode) (dn : DetNode) (t : TotalNode)
    (icms : ICMSTotNode)
    (he : i.emit = some e) (hd : i.det = some dn) (ht : i.total = some t)
    (hicms : t.ICMSTot = some icms) :
    buildNotaData raw i ide numeroS chaveS =
      some
        { numero := numeroS
          chaveNFe := chaveS
          dataEmissao := ide.dhEmi
          remetente :=
            { nome := e.xNome, cnpj := e.CNPJ, endereco := enderecoOf e.enderEmit }
          destinatario :=
            { nome := i.dest.bind DestNode.xNome
              cnpj := i.dest.bind DestNode.CNPJ
              cpf := i.dest.bind DestNode.CPF
              endereco := enderecoOf (i.dest.bind DestNode.enderDest) }
          transportadora := i.transp
          produtos := produtosOf dn
          valorTotal := icms.vNF.bind jsParseFloat
          xmlTexto := raw } := by
  simp only [buildNotaData, he, hd, ht, hicms]

/-- Helper: after a successful insert, some record in the final store
carries the normalized number, key and parsed total, whatever the render
and blob outcomes. -/
theorem persistAndRender_mem (nd : NotaData) (v : ℚ) (numeroS : String)
    (rf bf : Bool) (st : Store) :
    ∃ n ∈ (persistAndRender nd v numeroS rf bf st).2.notas,
      n.numero = nd.numero ∧ n.chaveNFe = nd.chaveNFe ∧ n.valorTotal = v := by
  unfold persistAndRender
  by_cases hrf : rf
  · refine ⟨insertedNota nd v st, ?_, rfl, rfl, rfl⟩
    simp [hrf]
  · by_cases hbf : bf
    · refine ⟨insertedNota nd v st, ?_, rfl, rfl, rfl⟩
      simp [hrf, hbf]
    · refine ⟨{ insertedNota nd v st with pdfFileId := some st.nextBlobId }, ?_, rfl, rfl, rfl⟩
      simp [hrf, hbf]

/-- C5 counterexample: a document whose grand total `abc` does not parse is
not answered with a 400 `InvalidAmount`; the `NaN` total makes the save
throw a cast error, answered 500 (nothing is persisted). -/
theorem invalid_total_cex :
    jsParseFloat "abc" = none ∧
    (ingest (some (mkDoc "abc")) false false st0).1 = .failCast ∧
    ingestStatus (ingest (some (mkDoc "abc")) false false st0).1 = 500 ∧
    ingestStatus (ingest (some (mkDoc "abc")) false false st0).1 ≠ 400 ∧
    (ingest (some (mkDoc "abc")) false false st0).2 = st0 := by
  refine ⟨by with_unfolding_all rfl, by with_unfolding_all rfl,
    by with_unfolding_all rfl, ?_, by with_unfolding_all rfl⟩
  have h : ingestStatus (ingest (some (mkDoc "abc")) false false st0).1 = 500 := by
    with_unfolding_all rfl
  rw [h]
  simp

/-- C5 amended: for a request reaching the normalizer whose grand-total
field does not parse as a decimal number, the computed total is `NaN`, the
record save is rejected by the store's schema cast and the request is
answered 500 — not the 400 the spec assigns to `InvalidAmount` — with no
record persisted; for a grand total that does parse, some record with the
request's number and key and exactly the parsed total is in the final
store. -/
theorem total_parse_roundtrip (f : XmlFile) (px : ParsedXml)
    (proc : NfeProcNode) (nfe : NFeNode) (i : InfNFe) (ide : IdeNode)
    (numeroS chaveS : String) (renderFail blobFail : Bool) (st : Store)
    (e : EmitNode) (dn : DetNode) (t : TotalNode) (icms : ICMSTotNode)
    (vs : String)
    (hp : f.parsed = some px) (h1 : px.nfeProc = some proc)
    (h2 : proc.NFe = some nfe) (h3 : nfe.infNFe = some i)
    (h4 : i.ide = some ide)
    (hn : ide.nNF = some numeroS) (hnT : numeroS ≠ "")
    (hc : extrairChaveNFe i = some chaveS) (hcT : chaveS ≠ "")
    (hnodup1 : ∀ n ∈ st.notas, n.numero ≠ numeroS)
    (hnodup2 : ∀ n ∈ st.notas, n.chaveNFe ≠ chaveS)
    (he : i.emit = some e) (hd : i.det = some dn) (ht : i.total = some t)
    (hicms : t.ICMSTot = some icms) (hv : icms.vNF = some vs) :
    (jsParseFloat vs = none →
      ingest (some f) renderFail blobFail st = (.failCast, st) ∧
      ingestStatus .failCast = 500) ∧
    (∀ v, jsParseFloat vs = some v →
      ∃ n ∈ (ingest (some f) renderFail blobFail st).2.notas,
        n.numero = numeroS ∧ n.chaveNFe = chaveS ∧ n.valorTotal = v) := by
  rw [ingest_reach f px proc nfe i ide numeroS chaveS renderFail blobFail st
    hp h1 h2 h3 h4 hn hnT hc hcT]
  have hf1 : st.notas.find? (fun n => n.numero == numeroS) = none :=
    List.find?_eq_none.mpr fun x hx => by simp [hnodup1 x hx]
  have hf2 : st.notas.find? (fun n => n.chaveNFe == chaveS) = none :=
    List.find?_eq_none.mpr fun x hx => by simp [hnodup2 x hx]
  have hb := buildNotaData_eq f.raw i ide numeroS chaveS e dn t icms he hd ht hicms
  rw [hv] at hb
  simp only [Option.some_bind] at hb
  constructor
  · intro hparse
    rw [hparse] at hb
    constructor
    · simp only [ingestWithKeys, hf1, hf2, hb]
    · rfl
  · intro v hparse
    rw [hparse] at hb
    simp only [ingestWithKeys, hf1, hf2, hb]
    exact persistAndRender_mem _ v numeroS renderFail blobFail st

/-- C5 witness: with total `150.50` over the empty store, a record with
number `123`, the stripped key and total exactly `301/2` is persisted; the
counterexample side is exercised by `invalid_total_cex`. -/
theorem total_parse_roundtrip_witness :
    jsParseFloat "150.50" = some (301 / 2) ∧
    (∃ n ∈ (ingest (some (mkDoc "150.50")) false false st0).2.notas,
      n.numero = "123" ∧ n.chaveNFe = chave0 ∧ n.valorTotal = 301 / 2) := by
  have main := total_parse_roundtrip (mkDoc "150.50")
    { nfeProc := some { NFe := some { infNFe := some (mkInf "150.50") } } }
    { NFe := some { infNFe := some (mkInf "150.50") } }
    { infNFe := some (mkInf "150.50") } (mkInf "150.50")
    { nNF := some "123", dhEmi := some "2020-01-01" }
    "123" chave0 false false st0
    { xNome := some "ACME", CNPJ := some "1", enderEmit := none }
    (.single { prod := some { dados := [] } })
    { ICMSTot := some { vNF := some "150.50" } }
    { vNF := some "150.50" } "150.50"
    rfl rfl rfl rfl rfl rfl (by simp) (by with_unfolding_all rfl)
    (by with_unfolding_all decide)
    (by intro n hn; simp [st0] at hn) (by intro n hn; simp [st0] at hn)
    rfl rfl rfl rfl rfl
  have hparse : jsParseFloat "150.50" = some (301 / 2) := by with_unfolding_all rfl
  exact ⟨hparse, main.2 (301 / 2) hparse⟩

/-- Helper: value of the persistence tail when the renderer throws. -/
theorem persistAndRender_renderFail (nd : NotaData) (v : ℚ) (numeroS : String)
    (bf : Bool) (st : Store) :
    persistAndRender nd v numeroS true bf st =
      (.failRender (insertedNota nd v st),
        { st with notas := st.notas ++ [insertedNota nd v st],
                  nextNotaId := st.nextNotaId + 1 }) := rfl

/-- Helper: value of the persistence tail when the blob upload stream
errors. -/
theorem persistAndRender_blobFail (nd : NotaData) (v : ℚ) (numeroS : String)
    (st : Store) :
    persistAndRender nd v numeroS false true st =
      (.failBlob (insertedNota nd v st),
        { st with notas := st.notas ++ [insertedNota nd v st],
                  nextNotaId := st.nextNotaId + 1 }) := rfl

/-- Helper: when the pipeline tail ends in a render or blob failure, the
inserted row stays appended, has no blob reference, and the bucket is
unchanged. -/
theorem ingestWithKeys_renderOrBlob (raw : String) (i : InfNFe) (ide : IdeNode)
    (numeroS chaveS : String) (rf bf : Bool) (st : Store) (n : Nota)
    (h : (ingestWithKeys raw i ide numeroS chaveS rf bf st).1 = .failRender n ∨
      (ingestWithKeys raw i ide numeroS chaveS rf bf st).1 = .failBlob n) :
    (ingestWithKeys raw i ide numeroS chaveS rf bf st).2.notas = st.notas ++ [n] ∧
    n.pdfFileId = none ∧
    (ingestWithKeys raw i ide numeroS chaveS rf bf st).2.blobs = st.blobs ∧
    ingestStatus (ingestWithKeys raw i ide numeroS chaveS rf bf st).1 = 500 := by
  cases hf1 : st.notas.find? (fun m => m.numero == numeroS) with
  | some m => simp [ingestWithKeys, hf1] at h
  | none =>
    cases hf2 : st.notas.find? (fun m => m.chaveNFe == chaveS) with
    | some m => simp [ingestWithKeys, hf1, hf2] at h
    | none =>
      cases hb : buildNotaData raw i ide numeroS chaveS with
      | none => simp [ingestWithKeys, hf1, hf2, hb] at h
      | some nd =>
        cases hv : nd.valorTotal with
        | none => simp [ingestWithKeys, hf1, hf2, hb, hv] at h
        | some v =>
          simp only [ingestWithKeys, hf1, hf2, hb, hv] at h ⊢
          by_cases hrf : rf
          · subst hrf
            rw [persistAndRender_renderFail] at h ⊢
            rcases h with h | h
            · injection h with h
              subst h
              exact ⟨rfl, rfl, rfl, rfl⟩
            · simp at h
          · have hrf2 : rf = false := by simpa using hrf
            subst hrf2
            by_cases hbf : bf
            · subst hbf
              rw [persistAndRender_blobFail] at h ⊢
              rcases h with h | h
              · simp at h
              · injection h with h
                subst h
                exact ⟨rfl, rfl, rfl, rfl⟩
            · have hbf2 : bf = false := by simpa using hbf
              subst hbf2
              unfold persistAndRender at h
              simp at h

/-- C6: whenever ingestion fails after the insert because rendering or the
blob write failed, the inserted row is not rolled back — it sits in the
final collection with all its inserted fields and no blob reference, the
bucket is unchanged, and the caller gets a 500. -/
theorem render_failure_keeps_row (file : Option XmlFile)
    (renderFail blobFail : Bool) (st : Store) (n : Nota)
    (h : (ingest file renderFail blobFail st).1 = .failRender n ∨
      (ingest file renderFail blobFail st).1 = .failBlob n) :
    (ingest file renderFail blobFail st).2.notas = st.notas ++ [n] ∧
    n.pdfFileId = none ∧
    (ingest file renderFail blobFail st).2.blobs = st.blobs ∧
    ingestStatus (ingest file renderFail blobFail st).1 = 500 := by
  cases file with
  | none => simp [ingest] at h
  | some f =>
    cases hpx : f.parsed with
    | none => simp [ingest, hpx] at h
    | some px =>
      cases hnp : px.nfeProc with
      | none => simp [ingest, hpx, hnp] at h
      | some proc =>
        cases hn : proc.NFe with
        | none => simp [ingest, hpx, hnp, hn] at h
        | some nfe =>
          cases hi : nfe.infNFe with
          | none => simp [ingest, hpx, hnp, hn, hi] at h
          | some i =>
            cases hide : i.ide with
            | none => simp [ingest, hpx, hnp, hn, hi, hide] at h
            | some ide =>
              by_cases hc : (optTruthy ide.nNF && optTruthy (extrairChaveNFe i)) = true
              · simp only [ingest, hpx, hnp, hn, hi, hide, hc, if_true] at h ⊢
                exact ingestWithKeys_renderOrBlob _ _ _ _ _ _ _ _ _ h
              · simp [ingest, hpx, hnp, hn, hi, hide, hc] at h

/-- C6 witness: ingesting the `150.50` fixture with a failing renderer
leaves exactly the inserted row, with no blob reference, in the collection, an
empty bucket, and answers 500. -/
theorem render_failure_keeps_row_witness :
    ((ingest (some (mkDoc "150.50")) true false st0).1 = .failRender notaInserted ∨
      (ingest (some (mkDoc "150.50")) true false st0).1 = .failBlob notaInserted) ∧
    (ingest (some (mkDoc "150.50")) true false st0).2.notas = st0.notas ++ [notaInserted] ∧
    notaInserted.pdfFileId = none ∧
    (ingest (some (mkDoc "150.50")) true false st0).2.blobs = st0.blobs ∧
    ingestStatus (ingest (some (mkDoc "150.50")) true false st0).1 = 500 := by
  have h : (ingest (some (mkDoc "150.50")) true false st0).1 = .failRender notaInserted := by
    with_unfolding_all rfl
  exact ⟨Or.inl h,
    render_failure_keeps_row (some (mkDoc "150.50")) true false st0 notaInserted (Or.inl h)⟩

/-- Helper: the duplicate guard, the normalizer and the schema cast leave
the store untouched whenever they stop the pipeline. -/
theorem ingestWithKeys_pre_snd (raw : String) (i : InfNFe) (ide : IdeNode)
    (numeroS chaveS : String) (rf bf : Bool) (st : Store)
    (h : persistedResult (ingestWithKeys raw i ide numeroS chaveS rf bf st).1 = false) :
    (ingestWithKeys raw i ide numeroS chaveS rf bf st).2 = st := by
  cases hf1 : st.notas.find? (fun n => n.numero == numeroS) with
  | some n => simp [ingestWithKeys, hf1]
  | none =>
    cases hf2 : st.notas.find? (fun n => n.chaveNFe == chaveS) with
    | some n => simp [ingestWithKeys, hf1, hf2]
    | none =>
      cases hb : buildNotaData raw i ide numeroS chaveS with
      | none => simp [ingestWithKeys, hf1, hf2, hb]
      | some nd =>
        cases hv : nd.valorTotal with
        | none => simp [ingestWithKeys, hf1, hf2, hb, hv]
        | some v =>
          exfalso
          simp only [ingestWithKeys, hf1, hf2, hb, hv] at h
          unfold persistAndRender at h
          by_cases hrf : rf
          · simp [hrf, persistedResult] at h
          · by_cases hbf : bf
            · simp [hrf, hbf, persistedResult] at h
            · simp [hrf, hbf, persistedResult] at h

/-- Helper: the pipeline tail after both duplicate lookups pass never
reports a duplicate (sequential model: the store-level race backstop is out
of scope). -/
theorem ingestWithKeys_noDup_ne (raw : String) (i : InfNFe) (ide : IdeNode)
    (numeroS chaveS : String) (rf bf : Bool) (st : Store)
    (hf1 : st.notas.find? (fun n => n.numero == numeroS) = none)
    (hf2 : st.notas.find? (fun n => n.chaveNFe == chaveS) = none) :
    ∀ k m, (ingestWithKeys raw i ide numeroS chaveS rf bf st).1 ≠ .failDuplicate k m := by
  intro k m
  simp only [ingestWithKeys, hf1, hf2]
  cases hb : buildNotaData raw i ide numeroS chaveS with
  | none => simp
  | some nd =>
    cases hv : nd.valorTotal with
    | none => simp [hv]
    | some v =>
      unfold persistAndRender
      by_cases hrf : rf
      · simp [hv, hrf]
      · by_cases hbf : bf <;> simp [hv, hrf, hbf]

/-- C1: for a request whose document yields both identity keys, the guard
rejects with a 409 exactly when some stored record matches the extracted
number or the extracted key; when any record matches the number, the
reported conflict is the number collision; and every conflict leaves the
store untouched and carries the conflicting record's summary (id, number,
document key, creation timestamp). -/
theorem duplicate_guard_conflicts (f : XmlFile) (px : ParsedXml)
    (proc : NfeProcNode) (nfe : NFeNode) (i : InfNFe) (ide : IdeNode)
    (numeroS chaveS : String) (renderFail blobFail : Bool) (st : Store)
    (hp : f.parsed = some px) (h1 : px.nfeProc = some proc)
    (h2 : proc.NFe = some nfe) (h3 : nfe.infNFe = some i)
    (h4 : i.ide = some ide)
    (hn : ide.nNF = some numeroS) (hnT : numeroS ≠ "")
    (hc : extrairChaveNFe i = some chaveS) (hcT : chaveS ≠ "") :
    ((∃ n ∈ st.notas, n.numero = numeroS ∨ n.chaveNFe = chaveS) ↔
      ∃ k m, (ingest (some f) renderFail blobFail st).1 = .failDuplicate k m) ∧
    ((∃ n ∈ st.notas, n.numero = numeroS) →
      ∃ m ∈ st.notas, m.numero = numeroS ∧
        (ingest (some f) renderFail blobFail st).1 = .failDuplicate .byNumero m) ∧
    (∀ k m, (ingest (some f) renderFail blobFail st).1 = .failDuplicate k m →
      m ∈ st.notas ∧
      ingestStatus (ingest (some f) renderFail blobFail st).1 = 409 ∧
      conflictBody (ingest (some f) renderFail blobFail st).1 =
        some (k, notaSummary m) ∧
      (ingest (some f) renderFail blobFail st).2 = st) := by
  rw [ingest_reach f px proc nfe i ide numeroS chaveS renderFail blobFail st
    hp h1 h2 h3 h4 hn hnT hc hcT]
  cases hf1 : st.notas.find? (fun n => n.numero == numeroS) with
  | some n =>
    have hmem := List.mem_of_find?_eq_some hf1
    have hnum : n.numero = numeroS := by simpa using List.find?_some hf1
    simp only [ingestWithKeys, hf1]
    refine ⟨⟨fun _ => ⟨.byNumero, n, rfl⟩, fun _ => ⟨n, hmem, Or.inl hnum⟩⟩,
      fun _ => ⟨n, hmem, hnum, rfl⟩, ?_⟩
    rintro k m hkm
    injection hkm with hk hm
    subst hk
    subst hm
    exact ⟨hmem, rfl, rfl, trivial⟩
  | none =>
    have hnone1 : ∀ x ∈ st.notas, x.numero ≠ numeroS := fun x hx => by
      simpa using List.find?_eq_none.mp hf1 x hx
    cases hf2 : st.notas.find? (fun n => n.chaveNFe == chaveS) with
    | some n =>
      have hmem := List.mem_of_find?_eq_some hf2
      have hch : n.chaveNFe = chaveS := by simpa using List.find?_some hf2
      simp only [ingestWithKeys, hf1, hf2]
      refine ⟨⟨fun _ => ⟨.byChave, n, rfl⟩, fun _ => ⟨n, hmem, Or.inr hch⟩⟩,
        ?_, ?_⟩
      · rintro ⟨m, hmemm, hnumm⟩
        exact absurd hnumm (hnone1 m hmemm)
      · rintro k m hkm
        injection hkm with hk hm
        subst hk
        subst hm
        exact ⟨hmem, rfl, rfl, trivial⟩
    | none =>
      have hnone2 : ∀ x ∈ st.notas, x.chaveNFe ≠ chaveS := fun x hx => by
        simpa using List.find?_eq_none.mp hf2 x hx
      have hne := ingestWithKeys_noDup_ne f.raw i ide numeroS chaveS
        renderFail blobFail st hf1 hf2
      refine ⟨⟨?_, ?_⟩, ?_, ?_⟩
      · rintro ⟨n, hmem, hor⟩
        rcases hor with hnum | hch
        · exact absurd hnum (hnone1 n hmem)
        · exact absurd hch (hnone2 n hmem)
      · rintro ⟨k, m, hkm⟩
        exact absurd hkm (hne k m)
      · rintro ⟨m, hmemm, hnumm⟩
        exact absurd hnumm (hnone1 m hmemm)
      · rintro k m hkm
        exact absurd hkm (hne k m)

/-- C1 witness: against a store holding a record with number `123` and key
`999`, a document with the same number but a different key is rejected as a
number conflict, 409, summary of the stored record, store untouched. -/
theorem duplicate_guard_conflicts_witness :
    (∃ n ∈ stDup.notas, n.numero = "123") ∧
    (ingest (some (mkDoc "150.50")) false false stDup).1 =
      .failDuplicate .byNumero nota123 ∧
    ingestStatus (ingest (some (mkDoc "150.50")) false false stDup).1 = 409 ∧
    conflictBody (ingest (some (mkDoc "150.50")) false false stDup).1 =
      some (.byNumero, notaSummary nota123) ∧
    (ingest (some (mkDoc "150.50")) false false stDup).2 = stDup := by
  have main := duplicate_guard_conflicts (mkDoc "150.50")
    { nfeProc := some { NFe := some { infNFe := some (mkInf "150.50") } } }
    { NFe := some { infNFe := some (mkInf "150.50") } }
    { infNFe := some (mkInf "150.50") } (mkInf "150.50")
    { nNF := some "123", dhEmi := some "2020-01-01" }
    "123" chave0 false false stDup rfl rfl rfl rfl rfl rfl
    (by simp) (by with_unfolding_all rfl) (by with_unfolding_all decide)
  have hdup : (∃ n ∈ stDup.notas, n.numero = "123") :=
    ⟨nota123, by simp [stDup], rfl⟩
  obtain ⟨m, hmem, hnum, heq⟩ := main.2.1 hdup
  have hm : m = nota123 := by
    have : stDup.notas = [nota123] := rfl
    rw [this] at hmem
    simpa using hmem
  subst hm
  obtain ⟨_, hstat, hbody, hsnd⟩ := main.2.2 .byNumero nota123 heq
  exact ⟨hdup, heq, hstat, hbody, hsnd⟩

/-- C2: every ingestion that fails before the `Persisted` stage (missing
file, parse throw, malformed envelope, missing identity, duplicate
conflict, extraction throw, or the schema cast failing on a non-numeric
total) writes nothing: the whole store — the record collection and the blob
bucket — is exactly as before the request. -/
theorem pre_persist_failures_write_nothing (file : Option XmlFile)
    (renderFail blobFail : Bool) (st : Store)
    (h : persistedResult (ingest file renderFail blobFail st).1 = false) :
    (ingest file renderFail blobFail st).2 = st := by
  cases file with
  | none => rfl
  | some f =>
    cases hpx : f.parsed with
    | none => simp [ingest, hpx]
    | some px =>
      cases hnp : px.nfeProc with
      | none => simp [ingest, hpx, hnp]
      | some proc =>
        cases hn : proc.NFe with
        | none => simp [ingest, hpx, hnp, hn]
        | some nfe =>
          cases hi : nfe.infNFe with
          | none => simp [ingest, hpx, hnp, hn, hi]
          | some i =>
            cases hide : i.ide with
            | none => simp [ingest, hpx, hnp, hn, hi, hide]
            | some ide =>
              by_cases hc : (optTruthy ide.nNF && optTruthy (extrairChaveNFe i)) = true
              · simp only [ingest, hpx, hnp, hn, hi, hide, hc, if_true] at h ⊢
                exact ingestWithKeys_pre_snd _ _ _ _ _ _ _ _ h
              · simp [ingest, hpx, hnp, hn, hi, hide, hc]

/-- C2 witness: a malformed envelope (no `nfeProc` root) and a duplicate
conflict each leave the non-empty store untouched. -/
theorem pre_persist_failures_write_nothing_witness :
    (persistedResult (ingest (some mkDocMalformed) false false stDup).1 = false ∧
      (ingest (some mkDocMalformed) false false stDup).2 = stDup) ∧
    (persistedResult (ingest (some (mkDoc "150.50")) false false stDup).1 = false ∧
      (ingest (some (mkDoc "150.50")) false false stDup).2 = stDup) := by
  have h1 : persistedResult (ingest (some mkDocMalformed) false false stDup).1 = false := by
    with_unfolding_all rfl
  have h2 : persistedResult (ingest (some (mkDoc "150.50")) false false stDup).1 = false := by
    with_unfolding_all rfl
  exact ⟨⟨h1, pre_persist_failures_write_nothing (some mkDocMalformed) false false stDup h1⟩,
    ⟨h2, pre_persist_failures_write_nothing (some (mkDoc "150.50")) false false stDup h2⟩⟩

/-- C9 counterexample: a parsed document with the full
`nfeProc.NFe.infNFe` nesting whose sender node is absent is NOT always
answered 500: when its document number is also missing, the identity check
fires first and the request is answered 400. -/
theorem structural_check_cex :
    mkInfNoEmitNoNum.emit = none ∧
    (ingest (some mkDocNoEmitNoNum) false false st0).1 = .failMissingIdentity ∧
    ingestStatus (ingest (some mkDocNoEmitNoNum) false false st0).1 = 400 ∧
    ingestStatus (ingest (some mkDocNoEmitNoNum) false false st0).1 ≠ 500 := by
  refine ⟨rfl, by with_unfolding_all rfl, by with_unfolding_all rfl, ?_⟩
  have h : ingestStatus (ingest (some mkDocNoEmitNoNum) false false st0).1 = 400 := by
    with_unfolding_all rfl
  rw [h]
  simp

/-- C9 amended: the structural 400 check validates only the
`nfeProc.NFe.infNFe` nesting.  With that nesting present, a missing
issue-metadata node always makes the handler throw at the number read and
answer a 500 with nothing persisted; a missing sender, items or totals node
(or a totals node without its inner `ICMSTot`) makes the handler throw
while building `notaData` and answer a 500 with nothing persisted —
provided the earlier checks do not fire first, i.e. both identity keys
extract truthy and neither key collides with a stored record. -/
theorem structural_check_only_nesting (f : XmlFile) (px : ParsedXml)
    (proc : NfeProcNode) (nfe : NFeNode) (i : InfNFe)
    (renderFail blobFail : Bool) (st : Store)
    (hp : f.parsed = some px) (h1 : px.nfeProc = some proc)
    (h2 : proc.NFe = some nfe) (h3 : nfe.infNFe = some i) :
    (i.ide = none →
      ingest (some f) renderFail blobFail st = (.failExtract, st) ∧
      ingestStatus .failExtract = 500) ∧
    (∀ ide numeroS chaveS, i.ide = some ide → ide.nNF = some numeroS →
      numeroS ≠ "" → extrairChaveNFe i = some chaveS → chaveS ≠ "" →
      (∀ n ∈ st.notas, n.numero ≠ numeroS) →
      (∀ n ∈ st.notas, n.chaveNFe ≠ chaveS) →
      (i.emit = none ∨ i.det = none ∨ i.total = none ∨
        (∃ t, i.total = some t ∧ t.ICMSTot = none)) →
      ingest (some f) renderFail blobFail st = (.failExtract, st) ∧
      ingestStatus .failExtract = 500) := by
  constructor
  · intro hide
    refine ⟨?_, rfl⟩
    simp only [ingest, hp, h1, h2, h3, hide]
  · intro ide numeroS chaveS hide hn hnT hc hcT hnodup1 hnodup2 habs
    refine ⟨?_, rfl⟩
    rw [ingest_reach f px proc nfe i ide numeroS chaveS renderFail blobFail st
      hp h1 h2 h3 hide hn hnT hc hcT]
    have hf1 : st.notas.find? (fun n => n.numero == numeroS) = none :=
      List.find?_eq_none.mpr fun x hx => by simp [hnodup1 x hx]
    have hf2 : st.notas.find? (fun n => n.chaveNFe == chaveS) = none :=
      List.find?_eq_none.mpr fun x hx => by simp [hnodup2 x hx]
    have hbn : buildNotaData f.raw i ide numeroS chaveS = none := by
      rcases habs with he | hd | ht | ⟨t, ht, hicms⟩
      · cases hdd : i.det <;> cases htt : i.total <;>
          simp [buildNotaData, he, hdd, htt]
      · cases hee : i.emit <;> cases htt : i.total <;>
          simp [buildNotaData, hee, hd, htt]
      · cases hee : i.emit <;> cases hdd : i.det <;>
          simp [buildNotaData, hee, hdd, ht]
      · cases hee : i.emit <;> cases hdd : i.det <;>
          simp [buildNotaData, hee, hdd, ht, hicms]
    simp only [ingestWithKeys, hf1, hf2, hbn]

/-- C9 witness: a document lacking only `ide` is answered 500 with nothing
persisted, and a document with truthy keys lacking only the sender node is
likewise answered 500 over the empty store. -/
theorem structural_check_only_nesting_witness :
    mkInfNoIde.ide = none ∧
    ingest (some mkDocNoIde) false false st0 = (.failExtract, st0) ∧
    mkInfNoEmit.emit = none ∧
    ingest (some mkDocNoEmit) false false st0 = (.failExtract, st0) ∧
    ingestStatus .failExtract = 500 := by
  have m1 := structural_check_only_nesting mkDocNoIde
    { nfeProc := some { NFe := some { infNFe := some mkInfNoIde } } }
    { NFe := some { infNFe := some mkInfNoIde } }
    { infNFe := some mkInfNoIde } mkInfNoIde false false st0 rfl rfl rfl rfl
  have m2 := structural_check_only_nesting mkDocNoEmit
    { nfeProc := some { NFe := some { infNFe := some mkInfNoEmit } } }
    { NFe := some { infNFe := some mkInfNoEmit } }
    { infNFe := some mkInfNoEmit } mkInfNoEmit false false st0 rfl rfl rfl rfl
  have h2 := m2.2 ideFix "123" chave0 rfl rfl (by simp)
    (by with_unfolding_all rfl) (by with_unfolding_all decide)
    (by intro n hn; simp [st0] at hn) (by intro n hn; simp [st0] at hn)
    (Or.inl rfl)
  exact ⟨rfl, (m1.1 rfl).1, rfl, h2.1, rfl⟩

/-- C10 witness: a document whose attribute map lacks `Id` while a direct
`id` field holds a valid prefixed key is still rejected as missing
identity. -/
theorem attr_map_strict_priority_witness :
    (mkInfNoAttrId.attr = some { Id := none } ∧ mkInfNoAttrId.idField = some ("NFe" ++ chave0)) ∧
    extrairChaveNFe mkInfNoAttrId = none ∧
    ingest (some mkDocNoAttrId) false false st0 = (.failMissingIdentity, st0) ∧
    ingestStatus .failMissingIdentity = 400 := by
  have main := attr_map_strict_priority mkDocNoAttrId
    (mkDocNoAttrId.parsed.getD { nfeProc := none })
    { NFe := some { infNFe := some mkInfNoAttrId } } { infNFe := some mkInfNoAttrId }
    mkInfNoAttrId { nNF := some "123", dhEmi := none } { Id := none } false false st0
    rfl rfl rfl rfl rfl rfl rfl
  exact ⟨⟨rfl, rfl⟩, main⟩

/-- Helper: `Math.ceil(total / limit)` equals ceiling division on the
naturals whenever `limit ≥ 1`. -/
theorem jsCeilPages_eq (total limit : Nat) (hl : 1 ≤ limit) :
    jsCeilPages total limit = (total + limit - 1) / limit := by
  unfold jsCeilPages
  have hb : (0 : ℚ) < (limit : ℚ) := by exact_mod_cast hl
  rcases Nat.eq_zero_or_pos total with h0 | hpos
  · subst h0
    have hm : (0 + limit - 1) / limit = 0 :=
      Nat.div_eq_of_lt (by omega)
    rw [hm]
    simp
  · have hmod := Nat.div_add_mod (total + limit - 1) limit
    have hr : (total + limit - 1) % limit < limit := Nat.mod_lt _ (by omega)
    obtain ⟨Q, hQ⟩ : ∃ Q, (total + limit - 1) / limit = Q := ⟨_, rfl⟩
    obtain ⟨R, hR⟩ : ∃ R, (total + limit - 1) % limit = R := ⟨_, rfl⟩
    rw [hQ, hR] at hmod
    rw [hR] at hr
    obtain ⟨P, hP⟩ : ∃ P, limit * Q = P := ⟨_, rfl⟩
    rw [hP] at hmod
    have hQpos : 1 ≤ Q := by
      by_contra hq
      have hq0 : Q = 0 := by omega
      rw [hq0, Nat.mul_zero] at hP
      omega
    have hQl : Q * limit = P := by
      rw [Nat.mul_comm]
      exact hP
    have hsub : (Q - 1) * limit = P - limit := by
      rw [Nat.sub_mul, Nat.one_mul, Nat.mul_comm, hP]
    have h1 : total ≤ Q * limit := by
      rw [hQl]
      omega
    have h2 : (Q - 1) * limit < total := by
      rw [hsub]
      omega
    have hceil : Int.ceil ((total : ℚ) / (limit : ℚ)) = (Q : ℤ) := by
      rw [Int.ceil_eq_iff]
      constructor
      · rw [lt_div_iff₀ hb]
        have hcast : ((Q : ℤ) : ℚ) - 1 = ((Q - 1 : ℕ) : ℚ) := by
          push_cast [Nat.cast_sub hQpos]
          ring
        rw [hcast]
        exact_mod_cast h2
      · rw [div_le_iff₀ hb]
        exact_mod_cast h1
    rw [hQ, hceil]
    exact Int.toNat_natCast _

/-- C7: the list endpoint reports the exact count of matching records,
`totalPages = ceil(total / limit)`, echoes the page and limit, returns the
page slice of length `min limit (total - (page-1)*limit)` (offset-based,
1-indexed), and the returned page is sorted by creation time descending. -/
theorem query_pagination (q : ListQuery) (st : Store)
    (_hp : 1 ≤ q.page) (hl : 1 ≤ q.limit) :
    (listNotas q st).totalItems = (st.notas.filter (matchesFilter q)).length ∧
    (listNotas q st).totalPages =
      ((st.notas.filter (matchesFilter q)).length + q.limit - 1) / q.limit ∧
    (listNotas q st).currentPage = q.page ∧
    (listNotas q st).itemsPerPage = q.limit ∧
    (listNotas q st).notas.length =
      min q.limit
        ((st.notas.filter (matchesFilter q)).length - (q.page - 1) * q.limit) ∧
    List.Sorted criadoDesc (listNotas q st).notas := by
  refine ⟨rfl, jsCeilPages_eq _ _ hl, rfl, rfl, ?_, ?_⟩
  · unfold listNotas
    simp [List.length_take, List.length_drop, List.length_insertionSort]
  · unfold listNotas
    have hs : List.Sorted criadoDesc
        ((st.notas.filter (matchesFilter q)).insertionSort criadoDesc) :=
      List.sorted_insertionSort criadoDesc _
    exact List.Pairwise.sublist
      ((List.take_sublist _ _).trans (List.drop_sublist _ _)) hs

/-- C7 witness: `page=2, limit=10` over 15 matching records returns 5
records, `totalPages = 2`, `totalItems = 15`, sorted by creation time
descending. -/
theorem query_pagination_witness :
    1 ≤ q15.page ∧ 1 ≤ q15.limit ∧
    (st15.notas.filter (matchesFilter q15)).length = 15 ∧
    (listNotas q15 st15).totalItems = 15 ∧
    (listNotas q15 st15).totalPages = 2 ∧
    (listNotas q15 st15).notas.length = 5 ∧
    List.Sorted criadoDesc (listNotas q15 st15).notas := by
  have main := query_pagination q15 st15 (by decide) (by decide)
  have hlen : (st15.notas.filter (matchesFilter q15)).length = 15 := by
    with_unfolding_all rfl
  refine ⟨by decide, by decide, hlen, ?_, ?_, ?_, main.2.2.2.2.2⟩
  · rw [main.1, hlen]
  · rw [main.2.1, hlen]
    with_unfolding_all rfl
  · rw [main.2.2.2.2.1, hlen]
    with_unfolding_all rfl

/-- Helper: in a collection whose records have pairwise distinct ids, two
members sharing an id are the same record. -/
theorem unique_id_eq {l : List Nota}
    (h : l.Pairwise (fun a b => a.id ≠ b.id)) {a b : Nota}
    (ha : a ∈ l) (hb : b ∈ l) (hid : a.id = b.id) : a = b := by
  induction l with
  | nil => cases ha
  | cons x xs ih =>
    rcases List.pairwise_cons.mp h with ⟨hx, hxs⟩
    rcases List.mem_cons.mp ha with rfl | ha'
    · rcases List.mem_cons.mp hb with rfl | hb'
      · rfl
      · exact absurd hid (hx b hb')
    · rcases List.mem_cons.mp hb with rfl | hb'
      · exact absurd hid.symm (hx a ha')
      · exact ih hxs ha' hb'

/-- C8: single deletion.  A missing id answers 404 and deletes nothing; an
existing record is removed (exactly the records with other ids remain) with
a 200; a record without a blob reference leaves the bucket untouched; with
a blob reference the referenced blob is removed, and a blob-deletion
failure is swallowed — bucket untouched but still a 200 with the record
gone. -/
theorem delete_single (id : Nat) (blobDeleteFails : Bool) (st : Store)
    (hunique : st.notas.Pairwise (fun a b => a.id ≠ b.id)) :
    ((∀ n ∈ st.notas, n.id ≠ id) →
      deleteNota id blobDeleteFails st = (.notFound, st) ∧
      deleteStatus .notFound = 404) ∧
    (∀ n, n ∈ st.notas → n.id = id →
      (∀ m, m ∈ (deleteNota id blobDeleteFails st).2.notas ↔
        (m ∈ st.notas ∧ m.id ≠ id)) ∧
      deleteStatus (deleteNota id blobDeleteFails st).1 = 200 ∧
      (n.pdfFileId = none →
        (deleteNota id blobDeleteFails st).2.blobs = st.blobs) ∧
      (∀ bid, n.pdfFileId = some bid → blobDeleteFails = true →
        (deleteNota id blobDeleteFails st).2.blobs = st.blobs) ∧
      (∀ bid, n.pdfFileId = some bid → blobDeleteFails = false →
        ∀ b, b ∈ (deleteNota id blobDeleteFails st).2.blobs ↔
          (b ∈ st.blobs ∧ b.id ≠ bid))) := by
  constructor
  · intro habs
    have hf : st.notas.find? (fun n => n.id == id) = none :=
      List.find?_eq_none.mpr fun x hx => by simp [habs x hx]
    exact ⟨by simp [deleteNota, hf], rfl⟩
  · intro n hmem hid
    have hsome : (st.notas.find? (fun n => n.id == id)).isSome := by
      rw [List.find?_isSome]
      exact ⟨n, hmem, by simp [hid]⟩
    obtain ⟨m0, hf⟩ := Option.isSome_iff_exists.mp hsome
    have hm0mem := List.mem_of_find?_eq_some hf
    have hm0id : m0.id = id := by simpa using List.find?_some hf
    have hm0n : m0 = n := unique_id_eq hunique hm0mem hmem (hm0id.trans hid.symm)
    rw [hm0n] at hf
    have hnotas : (deleteNota id blobDeleteFails st).2.notas =
        st.notas.filter (fun m => m.id != id) := by
      unfold deleteNota
      rw [hf]
      cases hpdf : n.pdfFileId with
      | none => simp only [hpdf]
      | some bid =>
        by_cases hbf : blobDeleteFails
        · simp [hpdf, hbf]
        · simp [hpdf, hbf]
    refine ⟨?_, ?_, ?_, ?_, ?_⟩
    · intro m
      rw [hnotas, List.mem_filter]
      simp
    · unfold deleteNota
      rw [hf]
      cases hpdf : n.pdfFileId with
      | none => simp [hpdf, deleteStatus]
      | some bid =>
        by_cases hbf : blobDeleteFails
        · simp [hpdf, hbf, deleteStatus]
        · simp [hpdf, hbf, deleteStatus]
    · intro hpdf
      unfold deleteNota
      rw [hf]
      simp [hpdf]
    · intro bid hpdf hbf
      unfold deleteNota
      rw [hf]
      simp [hpdf, hbf]
    · intro bid hpdf hbf
      unfold deleteNota
      rw [hf]
      intro b
      simp [hpdf, hbf, List.mem_filter]

/-- C8 witness: over a store holding a blob-free record (id 7) and a record
with a blob (id 1, blob 42): deleting id 99 answers 404 and changes
nothing; deleting id 1 removes the record and blob 42; deleting id 1 with a
failing blob deletion still answers 200, record gone, bucket untouched. -/
theorem delete_single_witness :
    (deleteNota 99 false stDel = (.notFound, stDel) ∧ deleteStatus .notFound = 404) ∧
    ((deleteNota 1 false stDel).2.notas = [nota123] ∧
      deleteStatus (deleteNota 1 false stDel).1 = 200 ∧
      (deleteNota 1 false stDel).2.blobs = [] ∧
      (blob42 ∈ (deleteNota 1 false stDel).2.blobs ↔ (blob42 ∈ stDel.blobs ∧ blob42.id ≠ 42))) ∧
    (deleteStatus (deleteNota 1 true stDel).1 = 200 ∧
      (deleteNota 1 true stDel).2.blobs = stDel.blobs ∧
      (notaWithBlob ∈ (deleteNota 1 true stDel).2.notas ↔
        (notaWithBlob ∈ stDel.notas ∧ notaWithBlob.id ≠ 1))) := by
  have huniq : stDel.notas.Pairwise (fun a b => a.id ≠ b.id) := by
    with_unfolding_all decide
  have mainNF := delete_single 99 false stDel huniq
  have mainOk := delete_single 1 false stDel huniq
  have mainBF := delete_single 1 true stDel huniq
  have hmem : notaWithBlob ∈ stDel.notas := by simp [stDel]
  have hOk := mainOk.2 notaWithBlob hmem rfl
  have hBF := mainBF.2 notaWithBlob hmem rfl
  refine ⟨mainNF.1 (by with_unfolding_all decide), ⟨?_, hOk.2.1, ?_, hOk.2.2.2.2 42 rfl rfl blob42⟩,
    hBF.2.1, hBF.2.2.2.1 42 rfl rfl, hBF.1 notaWithBlob⟩
  · with_unfolding_all rfl
  · with_unfolding_all rfl

end NfeBackend

